import Mathlib

/-!
Verification of the offline-first synchronization engine of the task-management
PWA: the IndexedDB-backed local store (`src/unnamed/part_016`), the sync manager
(`src/unnamed/part_018`), the zustand UI store
(`src/frontend/src/stores/useTaskStore.ts`) and the two mutation-driving
components `AddTaskForm` (`src/unnamed/part_007`) and `TaskList`
(`src/unnamed/part_004`).

Modelling conventions:
* IndexedDB object stores are association lists of (key, value).  `put`
  replaces any entry sharing the key, `getAll` returns values in ascending
  key order (IndexedDB iterates its B-tree in key order), `get` is a point
  lookup, `delete` removes by key.
* String keys are compared by code unit, as IndexedDB compares string keys;
  `strLt` implements that on the character lists of the strings.
* Remote (network) calls are inputs: each engine function takes the outcome
  the `api` client would produce (`none` meaning the call threw), and returns
  the list of remote calls it performed, so that theorems can speak about
  what was submitted to the backend.
* Nondeterministic data (`generateId()` results, `new Date().toISOString()`)
  are explicit parameters.
* A JS `throw` that escapes a function is modelled by an `Option String`
  carrying the message, together with the state at the moment of the throw.
-/

namespace TaskPWA

/-- Code-unit comparison of character lists, matching how IndexedDB orders
string keys. -/
def charListLt : List Char → List Char → Bool
  | [], [] => false
  | [], _ :: _ => true
  | _ :: _, [] => false
  | a :: as, b :: bs => if a < b then true else if b < a then false else charListLt as bs

/-- String key order used by the IndexedDB model. -/
def strLt (a b : String) : Bool := charListLt a.data b.data

/-- JS `String.prototype.trim`: strip leading and trailing whitespace. -/
def jsTrim (s : String) : String :=
  String.mk (((s.data.dropWhile Char.isWhitespace).reverse.dropWhile Char.isWhitespace).reverse)

/-- The `Task` interface from `src/unnamed/part_002`. -/
structure Task where
  id : String
  title : String
  description : Option String
  completed : Bool
  createdAt : String
  updatedAt : String
  userId : String
  version : Nat
deriving DecidableEq, Repr

/-- A subset of `Task` fields (the TS type `Partial<Task>`): each field is
present (`some`) or absent (`none`). -/
structure TaskPatch where
  id? : Option String := none
  title? : Option String := none
  description? : Option (Option String) := none
  completed? : Option Bool := none
  createdAt? : Option String := none
  updatedAt? : Option String := none
  userId? : Option String := none
  version? : Option Nat := none
deriving DecidableEq, Repr

/-- JS object spread `{...t, ...p}`: fields present in the patch override. -/
def Task.applyPatch (t : Task) (p : TaskPatch) : Task :=
  { id := p.id?.getD t.id
    title := p.title?.getD t.title
    description := p.description?.getD t.description
    completed := p.completed?.getD t.completed
    createdAt := p.createdAt?.getD t.createdAt
    updatedAt := p.updatedAt?.getD t.updatedAt
    userId := p.userId?.getD t.userId
    version := p.version?.getD t.version }

/-- A full task viewed as a patch with every field present (a TS `Task` used
where `Partial<Task>` is expected). -/
def Task.toPatch (t : Task) : TaskPatch :=
  { id? := some t.id, title? := some t.title, description? := some t.description
    completed? := some t.completed, createdAt? := some t.createdAt
    updatedAt? := some t.updatedAt, userId? := some t.userId
    version? := some t.version }

/-- The `operation` field of a `SyncOperation`. -/
inductive OpType where
  | create
  | update
  | delete
deriving DecidableEq, Repr

/-- The `SyncOperation` interface from `src/unnamed/part_002`. -/
structure SyncOperation where
  id : String
  operation : OpType
  taskId : String
  data : TaskPatch
  timestamp : String
  synced : Bool
deriving DecidableEq, Repr

/-- The payload of `api.tasks.create` as built by the components
(`Pick<Task, title | description>`). -/
structure CreatePayload where
  title : String
  description : Option String
deriving DecidableEq, Repr

/-- The batch-sync response `{synced, conflicts}` of `api.sync.syncOperations`. -/
structure SyncResult where
  synced : Nat
  conflicts : List Task
deriving DecidableEq, Repr

/-- One call made on the `api` client (the Remote Task Service boundary). -/
inductive RemoteCall where
  | listTasks
  | createTask (payload : CreatePayload)
  | updateTask (id : String) (data : TaskPatch)
  | deleteTask (id : String)
  | getTask (id : String)
  | syncOperations (operations : List SyncOperation)
deriving DecidableEq, Repr

/-! ### The IndexedDB model (`src/unnamed/part_016`) -/

/-- An IndexedDB object store with string keys. -/
abbrev Store (α : Type) := List (String × α)

/-- `put`: insert-or-replace by key. -/
def Store.put (k : String) (v : α) (s : Store α) : Store α :=
  (s.filter fun e => e.1 != k) ++ [(k, v)]

/-- `get`: point lookup by key. -/
def Store.get (k : String) (s : Store α) : Option α :=
  (s.find? fun e => e.1 == k).map Prod.snd

/-- `delete`: remove by key (no-op when absent). -/
def Store.del (k : String) (s : Store α) : Store α :=
  s.filter fun e => e.1 != k

/-- Insert an entry into a key-sorted list of entries. -/
def insertByKey (p : String × α) : List (String × α) → List (String × α)
  | [] => [p]
  | q :: l => if strLt p.1 q.1 then p :: q :: l else q :: insertByKey p l

/-- Entries in ascending key order: the order in which IndexedDB cursors and
`getAll` traverse an object store. -/
def sortByKey : List (String × α) → List (String × α)
  | [] => []
  | p :: l => insertByKey p (sortByKey l)

/-- `getAll`: every value, in ascending key order. -/
def Store.values (s : Store α) : List α :=
  (sortByKey s).map Prod.snd

namespace taskDB

/-- `taskDB.getAll`. -/
def getAll (ts : Store Task) : List Task := Store.values ts

/-- `taskDB.get`. -/
def get (id : String) (ts : Store Task) : Option Task := Store.get id ts

/-- `taskDB.put`: the store uses `keyPath: id`, so the key is `task.id`. -/
def put (task : Task) (ts : Store Task) : Store Task := Store.put task.id task ts

/-- `taskDB.delete`. -/
def delete (id : String) (ts : Store Task) : Store Task := Store.del id ts

/-- `taskDB.bulkPut`: put every task of the list (no clearing). -/
def bulkPut (tasks : List Task) (ts : Store Task) : Store Task :=
  tasks.foldl (fun acc task => put task acc) ts

end taskDB

namespace syncQueueDB

/-- `syncQueueDB.getAll`. -/
def getAll (q : Store SyncOperation) : List SyncOperation := Store.values q

/-- `syncQueueDB.getUnsynced`: all operations, filtered to the unsynced ones. -/
def getUnsynced (q : Store SyncOperation) : List SyncOperation :=
  (getAll q).filter fun op => !op.synced

/-- `syncQueueDB.add`: a put keyed by `operation.id`. -/
def add (op : SyncOperation) (q : Store SyncOperation) : Store SyncOperation :=
  Store.put op.id op q

/-- `syncQueueDB.markSynced`: look the operation up; when present, store it
back with `synced := true`. -/
def markSynced (i : String) (q : Store SyncOperation) : Store SyncOperation :=
  match Store.get i q with
  | some op => Store.put op.id { op with synced := true } q
  | none => q

/-- `syncQueueDB.delete`. -/
def delete (i : String) (q : Store SyncOperation) : Store SyncOperation :=
  Store.del i q

/-- `syncQueueDB.clearSynced`: read all operations, delete every synced one. -/
def clearSynced (q : Store SyncOperation) : Store SyncOperation :=
  ((getAll q).filter fun op => op.synced).foldl (fun acc op => Store.del op.id acc) q

end syncQueueDB

/-! ### The zustand UI store (`useTaskStore.ts`) -/

/-- The `syncStatus` field of the UI store. -/
inductive SyncStatus where
  | idle
  | syncing
  | success
  | error
deriving DecidableEq, Repr

/-- The state of `useTaskStore`. -/
structure UIState where
  tasks : List Task
  loading : Bool
  error : Option String
  syncStatus : SyncStatus
  isOffline : Bool
deriving DecidableEq, Repr

/-- `setTasks`. -/
def UIState.setTasks (tasks : List Task) (u : UIState) : UIState := { u with tasks := tasks }

/-- `addTask`: append to the list. -/
def UIState.addTask (task : Task) (u : UIState) : UIState :=
  { u with tasks := u.tasks ++ [task] }

/-- `updateTask`: merge the updates into every task with the id and bump its
version by one. -/
def UIState.updateTask (id : String) (updates : TaskPatch) (u : UIState) : UIState :=
  { u with tasks := u.tasks.map fun task =>
      if task.id == id then { task.applyPatch updates with version := task.version + 1 }
      else task }

/-- `deleteTask`: drop every task with the id. -/
def UIState.deleteTask (id : String) (u : UIState) : UIState :=
  { u with tasks := u.tasks.filter fun task => task.id != id }

/-- `setLoading`. -/
def UIState.setLoading (b : Bool) (u : UIState) : UIState := { u with loading := b }

/-- `setError`. -/
def UIState.setError (e : Option String) (u : UIState) : UIState := { u with error := e }

/-- `setSyncStatus`. -/
def UIState.setSyncStatus (st : SyncStatus) (u : UIState) : UIState := { u with syncStatus := st }

/-- `setOffline`. -/
def UIState.setOffline (b : Bool) (u : UIState) : UIState := { u with isOffline := b }

/-- The two IndexedDB object stores. -/
structure DBState where
  tasks : Store Task
  syncQueue : Store SyncOperation
deriving DecidableEq, Repr

/-- Everything the sync engine mutates: the durable stores plus the UI store. -/
structure AppState where
  db : DBState
  ui : UIState
deriving DecidableEq, Repr

/-! ### The sync manager (`src/unnamed/part_018`) -/

namespace syncManager

/-- The task record `createTaskOffline` builds: temporary id, `version = 1`,
`userId` fixed to the placeholder. -/
def mkOfflineTask (tempId now : String) (data : CreatePayload) : Task :=
  { id := tempId, title := data.title, description := data.description
    completed := false, createdAt := now, updatedAt := now
    userId := "temp", version := 1 }

/-- Return value and post-state of `createTaskOffline`. -/
structure CreateOutcome where
  task : Task
  state : AppState
deriving DecidableEq, Repr

/-- `syncManager.createTaskOffline`: build the task, `taskDB.put` it, queue an
unsynced `create` operation carrying the full task, add it to the UI store. -/
def createTaskOffline (tempId opId now : String) (data : CreatePayload)
    (s : AppState) : CreateOutcome :=
  let task := mkOfflineTask tempId now data
  let db1 : DBState := { s.db with tasks := taskDB.put task s.db.tasks }
  let op : SyncOperation :=
    { id := opId, operation := .create, taskId := task.id
      data := task.toPatch, timestamp := now, synced := false }
  let db2 : DBState := { db1 with syncQueue := syncQueueDB.add op db1.syncQueue }
  { task := task, state := { db := db2, ui := s.ui.addTask task } }

/-- The record `updateTaskOffline` stores:
`{...task, ...updates, updatedAt: now, version: task.version + 1}`. -/
def mergedTask (task : Task) (updates : TaskPatch) (now : String) : Task :=
  { task.applyPatch updates with updatedAt := now, version := task.version + 1 }

/-- Post-state of `updateTaskOffline` plus the error it threw, if any. -/
structure UpdateOutcome where
  state : AppState
  thrown : Option String
deriving DecidableEq, Repr

/-- `syncManager.updateTaskOffline`: look the task up; throw `Task not found`
when absent; otherwise store the merged record, queue an unsynced `update`
operation, and merge the updates into the UI store. -/
def updateTaskOffline (opId now id : String) (updates : TaskPatch)
    (s : AppState) : UpdateOutcome :=
  match taskDB.get id s.db.tasks with
  | none => { state := s, thrown := some "Task not found" }
  | some task =>
    let updatedTask := mergedTask task updates now
    let db1 : DBState := { s.db with tasks := taskDB.put updatedTask s.db.tasks }
    let op : SyncOperation :=
      { id := opId, operation := .update, taskId := id
        data := updates, timestamp := updatedTask.updatedAt, synced := false }
    let db2 : DBState := { db1 with syncQueue := syncQueueDB.add op db1.syncQueue }
    { state := { db := db2, ui := s.ui.updateTask id updates }, thrown := none }

/-- `syncManager.deleteTaskOffline`: queue an unsynced `delete` operation
first, then remove the record and drop it from the UI store. -/
def deleteTaskOffline (opId now id : String) (s : AppState) : AppState :=
  let op : SyncOperation :=
    { id := opId, operation := .delete, taskId := id
      data := {}, timestamp := now, synced := false }
  let db1 : DBState := { s.db with syncQueue := syncQueueDB.add op s.db.syncQueue }
  let db2 : DBState := { db1 with tasks := taskDB.delete id db1.tasks }
  { db := db2, ui := s.ui.deleteTask id }

/-- Result, post-state and performed remote calls of `syncWithBackend`. -/
structure DrainOutcome where
  res : SyncResult
  state : AppState
  calls : List RemoteCall
deriving DecidableEq, Repr

/-- `syncManager.syncWithBackend`, parameterized by the behaviour of
`api.sync.syncOperations` (`none` = the call threw).  Reads the unsynced
operations; when none, returns `{synced 0, conflicts []}` without a network
call.  Otherwise submits them as one batch; on success marks every submitted
operation synced and purges synced operations; on failure catches the error
and resolves with `{synced 0, conflicts []}`, leaving the queue untouched. -/
def syncWithBackend (remote : List SyncOperation → Option SyncResult)
    (s : AppState) : DrainOutcome :=
  let s1 : AppState := { s with ui := s.ui.setSyncStatus .syncing }
  let operations := syncQueueDB.getUnsynced s1.db.syncQueue
  if operations.isEmpty then
    { res := { synced := 0, conflicts := [] }
      state := { s1 with ui := s1.ui.setSyncStatus .success }
      calls := [] }
  else
    match remote operations with
    | some result =>
      let q1 := operations.foldl (fun acc op => syncQueueDB.markSynced op.id acc) s1.db.syncQueue
      let q2 := syncQueueDB.clearSynced q1
      { res := result
        state := { db := { s1.db with syncQueue := q2 }
                   ui := (s1.ui.setSyncStatus .success).setOffline false }
        calls := [.syncOperations operations] }
    | none =>
      { res := { synced := 0, conflicts := [] }
        state := { s1 with ui := (s1.ui.setSyncStatus .error).setOffline true }
        calls := [.syncOperations operations] }

/-- Post-state and performed remote calls of `loadTasks` / `resolveConflict`. -/
structure EngineOutcome where
  state : AppState
  calls : List RemoteCall
deriving DecidableEq, Repr

/-- `syncManager.loadTasks`, parameterized by the outcome of
`api.tasks.list()` (`none` = the call threw).  On success the returned tasks
go into the UI store, are bulk-put into IndexedDB, and the state is marked
online.  On failure the cached tasks are read from IndexedDB into the UI
store and the state is marked offline; no error is set. -/
def loadTasks (remoteList : Option (List Task)) (s : AppState) : EngineOutcome :=
  let s1 : AppState := { s with ui := s.ui.setLoading true }
  match remoteList with
  | some tasks =>
    let ui1 := (s1.ui.setTasks tasks).setOffline false
    let db1 : DBState := { s1.db with tasks := taskDB.bulkPut tasks s1.db.tasks }
    { state := { db := db1, ui := ui1.setLoading false }, calls := [.listTasks] }
  | none =>
    let tasks := taskDB.getAll s1.db.tasks
    let ui1 := (s1.ui.setTasks tasks).setOffline true
    { state := { s1 with ui := ui1.setLoading false }, calls := [.listTasks] }

/-- `syncManager.resolveConflict`.  `useLocal = true`: read the local record
and, when present, push the full record through `api.tasks.update`; the
response is discarded and no store is written.  `useLocal = false`: fetch the
server record (`remoteGet` is what `api.tasks.get` returned), overwrite the
IndexedDB copy with it and merge it into the UI store. -/
def resolveConflict (taskId : String) (useLocal : Bool) (remoteGet : Task)
    (s : AppState) : EngineOutcome :=
  if useLocal then
    match taskDB.get taskId s.db.tasks with
    | some localTask => { state := s, calls := [.updateTask taskId localTask.toPatch] }
    | none => { state := s, calls := [] }
  else
    let db1 : DBState := { s.db with tasks := taskDB.put remoteGet s.db.tasks }
    { state := { db := db1, ui := s.ui.updateTask taskId remoteGet.toPatch }
      calls := [.getTask taskId] }

end syncManager

/-! ### The mutation-driving components -/

/-- Post-state, performed remote calls, and escaped error of a component
handler. -/
structure HandlerOutcome where
  state : AppState
  calls : List RemoteCall
  thrown : Option String
deriving DecidableEq, Repr

namespace AddTaskForm

/-- The payload `handleSubmit` builds: trimmed title, trimmed description or
absent when blank. -/
def trimmedPayload (title description : String) : CreatePayload :=
  { title := jsTrim title
    description := if jsTrim description == "" then none else some (jsTrim description) }

/-- `AddTaskForm.handleSubmit`, parameterized by the outcome of
`api.tasks.create` (`none` = the call threw; unused when offline).  Blank
titles are rejected up front.  Offline: `createTaskOffline`.  Online: call the
api; on success only the UI store receives the server task; on failure fall
back to `createTaskOffline`. -/
def handleSubmit (tempId opId now title description : String)
    (remoteCreate : Option Task) (s : AppState) : HandlerOutcome :=
  if jsTrim title == "" then { state := s, calls := [], thrown := none }
  else
    let taskData := trimmedPayload title description
    if s.ui.isOffline then
      { state := (syncManager.createTaskOffline tempId opId now taskData s).state
        calls := [], thrown := none }
    else
      match remoteCreate with
      | some task =>
        { state := { s with ui := s.ui.addTask task }
          calls := [.createTask taskData], thrown := none }
      | none =>
        { state := (syncManager.createTaskOffline tempId opId now taskData s).state
          calls := [.createTask taskData], thrown := none }

end AddTaskForm

namespace TaskList

/-- `TaskList.handleToggleComplete`, parameterized by the outcome of
`api.tasks.update` (`none` = the call threw; the response value is discarded
by the source).  Missing task in the UI store: no-op.  Offline:
`updateTaskOffline`.  Online: call the api; on success only the UI store is
updated; on failure fall back to `updateTaskOffline` (whose `Task not found`
error would escape uncaught). -/
def handleToggleComplete (opId now id : String) (remoteUpdate : Option Task)
    (s : AppState) : HandlerOutcome :=
  match s.ui.tasks.find? fun t => t.id == id with
  | none => { state := s, calls := [], thrown := none }
  | some task =>
    let updates : TaskPatch := { completed? := some (!task.completed) }
    if s.ui.isOffline then
      let o := syncManager.updateTaskOffline opId now id updates s
      { state := o.state, calls := [], thrown := o.thrown }
    else
      match remoteUpdate with
      | some _ =>
        { state := { s with ui := s.ui.updateTask id updates }
          calls := [.updateTask id updates], thrown := none }
      | none =>
        let o := syncManager.updateTaskOffline opId now id updates s
        { state := o.state, calls := [.updateTask id updates], thrown := o.thrown }

/-- `TaskList.handleDelete`, parameterized by the outcome of
`api.tasks.delete` (`none` = the call threw).  Offline: `deleteTaskOffline`.
Online: call the api; on success only the UI store drops the task; on failure
fall back to `deleteTaskOffline`. -/
def handleDelete (opId now id : String) (remoteDelete : Option Unit)
    (s : AppState) : HandlerOutcome :=
  if s.ui.isOffline then
    { state := syncManager.deleteTaskOffline opId now id s, calls := [], thrown := none }
  else
    match remoteDelete with
    | some _ =>
      { state := { s with ui := s.ui.deleteTask id }
        calls := [.deleteTask id], thrown := none }
    | none =>
      { state := syncManager.deleteTaskOffline opId now id s
        calls := [.deleteTask id], thrown := none }

end TaskList

/-- Well-formedness of an object store with `keyPath: id`: every entry is
keyed by the `id` field of its value.  Every store reachable through
`taskDB` / `syncQueueDB` writes satisfies this. -/
def WFQueue (q : Store SyncOperation) : Prop :=
  ∀ e ∈ q, e.1 = e.2.id

instance (q : Store SyncOperation) : Decidable (WFQueue q) := by
  unfold WFQueue
  infer_instance


/-! ### Concrete fixtures used by counterexamples and witnesses -/

/-- The initial `useTaskStore` state. -/
def uiInit : UIState :=
  { tasks := [], loading := false, error := none, syncStatus := .idle, isOffline := false }

/-- A plain cached task at version 1. -/
def sampleTask : Task :=
  { id := "t1", title := "Buy milk", description := none, completed := false
    createdAt := "2026-01-01T00:00:00.000Z", updatedAt := "2026-01-01T00:00:00.000Z"
    userId := "u1", version := 1 }

/-- A queued, unsynced update operation targeting `t1`. -/
def pendingOp : SyncOperation :=
  { id := "1759990000000-k2v9d3q4x", operation := .update, taskId := "t1"
    data := { completed? := some true }, timestamp := "2026-01-01T00:00:05.000Z", synced := false }

/-- A server-side copy of `t1` at a higher version, as returned in a batch
response conflict list. -/
def serverConflictTask : Task :=
  { id := "t1", title := "Buy milk", description := none, completed := true
    createdAt := "2026-01-01T00:00:00.000Z", updatedAt := "2026-01-02T00:00:00.000Z"
    userId := "u1", version := 3 }

/-- A state holding cached task `t1` and one unsynced queued operation. -/
def drainState : AppState :=
  { db := { tasks := [("t1", sampleTask)], syncQueue := [("1759990000000-k2v9d3q4x", pendingOp)] }
    ui := uiInit }

/-- The task a successful `api.tasks.create` returns (server-assigned id). -/
def serverTask : Task :=
  { id := "srv-42", title := "Call dentist", description := none, completed := false
    createdAt := "2026-01-01T00:00:02.000Z", updatedAt := "2026-01-01T00:00:02.000Z"
    userId := "u1", version := 1 }

/-- An online state with empty stores. -/
def onlineEmptyState : AppState := { db := { tasks := [], syncQueue := [] }, ui := uiInit }

/-- A cached task the server no longer returns. -/
def staleTask : Task :=
  { id := "old-1", title := "Stale", description := none, completed := false
    createdAt := "2025-12-01T00:00:00.000Z", updatedAt := "2025-12-01T00:00:00.000Z"
    userId := "u1", version := 1 }

/-- The single task the server returns on the initial list call. -/
def freshTask : Task :=
  { id := "srv-9", title := "Fresh", description := none, completed := false
    createdAt := "2026-01-01T00:00:00.000Z", updatedAt := "2026-01-01T00:00:00.000Z"
    userId := "u1", version := 1 }

/-- The local, user-edited copy of `t1` at version 2. -/
def localV2 : Task :=
  { id := "t1", title := "Buy milk and eggs", description := none, completed := false
    createdAt := "2026-01-01T00:00:00.000Z", updatedAt := "2026-01-03T00:00:00.000Z"
    userId := "u1", version := 2 }

/-- The conflicting server copy of `t1` at version 3. -/
def serverV3 : Task :=
  { id := "t1", title := "Buy oat milk", description := none, completed := true
    createdAt := "2026-01-01T00:00:00.000Z", updatedAt := "2026-01-04T00:00:00.000Z"
    userId := "u1", version := 3 }

/-- A conflicted state: IndexedDB and the UI store hold the local version-2
record while the server holds version 3. -/
def conflictState : AppState :=
  { db := { tasks := [("t1", localV2)], syncQueue := [] }, ui := { uiInit with tasks := [localV2] } }

/-- A state whose UI store lists `t1` although IndexedDB has no such record
(exactly what an online-created task produces, since the online create path
never writes IndexedDB). -/
def cexToggleState : AppState :=
  { db := { tasks := [], syncQueue := [] }, ui := { uiInit with tasks := [sampleTask] } }

/-- A state satisfying every hypothesis of the offline-fallback theorem:
`t1` is present in both the UI store and IndexedDB, and the app is online. -/
def c1WitnessState : AppState :=
  { db := { tasks := [("t1", sampleTask)], syncQueue := [] }
    ui := { uiInit with tasks := [sampleTask] } }

/-- The first operation enqueued in the same-millisecond scenario: its
generated id has millisecond prefix `1759990000000` and random suffix `b...`. -/
def queuedFirstOp : SyncOperation :=
  { id := "1759990000000-b7q3k0f2m", operation := .update, taskId := "t1"
    data := { completed? := some true }, timestamp := "2026-01-08T12:00:00.000Z", synced := false }

/-- The second operation enqueued in the same millisecond: same millisecond
prefix, random suffix `a...` that sorts before the first operation. -/
def queuedSecondOp : SyncOperation :=
  { id := "1759990000000-a2f8d9h1c", operation := .update, taskId := "t1"
    data := { title? := some "Buy milk now" }, timestamp := "2026-01-08T12:00:00.000Z", synced := false }

/-- The state after queueing `queuedFirstOp` and then `queuedSecondOp`
through `updateTaskOffline` (two updates of `t1` in one millisecond). -/
def twoUpdateState : AppState :=
  (syncManager.updateTaskOffline "1759990000000-a2f8d9h1c" "2026-01-08T12:00:00.000Z" "t1"
    { title? := some "Buy milk now" }
    (syncManager.updateTaskOffline "1759990000000-b7q3k0f2m" "2026-01-08T12:00:00.000Z" "t1"
      { completed? := some true }
      { db := { tasks := [("t1", sampleTask)], syncQueue := [] }
        ui := { uiInit with tasks := [sampleTask] } }).state).state

/-- A queue whose two unsynced operations carry ids generated in distinct
milliseconds, hence in strictly increasing key order. -/
def orderedOpA : SyncOperation :=
  { id := "1760000000001-c3d4e5f6g", operation := .create, taskId := "tmp-7"
    data := {}, timestamp := "2026-01-09T09:00:00.001Z", synced := false }

/-- The later of the two distinct-millisecond operations. -/
def orderedOpB : SyncOperation :=
  { id := "1760000000002-h7j8k9m1n", operation := .update, taskId := "tmp-7"
    data := { completed? := some true }, timestamp := "2026-01-09T09:00:00.002Z", synced := false }

/-- A state whose sync queue holds `orderedOpA` then `orderedOpB`. -/
def orderedQueueState : AppState :=
  { db := { tasks := []
            syncQueue := [("1760000000001-c3d4e5f6g", orderedOpA), ("1760000000002-h7j8k9m1n", orderedOpB)] }
    ui := uiInit }

/-! ### Helper lemmas about the store model and the drain -/


theorem mem_insertByKey {α : Type} (p x : String × α) (l : List (String × α)) :
    x ∈ insertByKey p l ↔ x = p ∨ x ∈ l := by
  induction l with
  | nil => simp [insertByKey]
  | cons q t ih =>
    simp only [insertByKey]
    split
    · simp [List.mem_cons]
    · simp only [List.mem_cons, ih]
      tauto

theorem mem_sortByKey {α : Type} (x : String × α) (l : List (String × α)) :
    x ∈ sortByKey l ↔ x ∈ l := by
  induction l with
  | nil => simp [sortByKey]
  | cons p t ih => simp [sortByKey, mem_insertByKey, ih]

theorem sortByKey_eq_self {α : Type} (l : List (String × α))
    (h : l.Pairwise fun p q => strLt p.1 q.1 = true) : sortByKey l = l := by
  induction l with
  | nil => rfl
  | cons p t ih =>
    obtain ⟨hp, ht⟩ := List.pairwise_cons.mp h
    rw [sortByKey, ih ht]
    cases t with
    | nil => rfl
    | cons q t2 => simp [insertByKey, hp q (by simp)]

theorem Store.get_put_same {α : Type} (k : String) (v : α) (s : Store α) :
    Store.get k (Store.put k v s) = some v := by
  induction s with
  | nil => simp [Store.put, Store.get, List.find?]
  | cons e t ih =>
    simp only [Store.put, List.filter_cons] at ih ⊢
    by_cases h : (e.1 != k) = true
    · rw [if_pos h]
      have hne : (e.1 == k) = false := by
        simpa [bne] using h
      simp only [Store.get, List.cons_append, List.find?, hne]
      exact ih
    · rw [if_neg h]
      exact ih

theorem Store.get_put_other {α : Type} (k j : String) (v : α) (s : Store α) (h : j ≠ k) :
    Store.get j (Store.put k v s) = Store.get j s := by
  induction s with
  | nil =>
    have : (k == j) = false := by simp [beq_iff_eq]; exact fun hk => h hk.symm
    simp [Store.put, Store.get, List.find?, this]
  | cons e t ih =>
    simp only [Store.put, List.filter_cons] at ih ⊢
    by_cases he : (e.1 != k) = true
    · rw [if_pos he]
      by_cases hej : (e.1 == j) = true
      · simp only [Store.get, List.cons_append, List.find?, hej]
      · simp only [Store.get, List.cons_append, List.find?, hej] at ih ⊢
        exact ih
    · rw [if_neg he]
      have hek : e.1 = k := by
        simpa [bne] using he
      have hej : (e.1 == j) = false := by
        simp [beq_iff_eq, hek]
        exact fun hk => h hk.symm
      simp only [Store.get, List.find?, hej]
      exact ih

theorem Store.get_eq_none_iff {α : Type} (k : String) (s : Store α) :
    Store.get k s = none ↔ ∀ e ∈ s, e.1 ≠ k := by
  simp [Store.get, List.find?_eq_none]

theorem Store.get_del_same {α : Type} (k : String) (s : Store α) :
    Store.get k (Store.del k s) = none := by
  rw [Store.get_eq_none_iff]
  intro e he
  have := (List.mem_filter.mp he).2
  simpa [bne] using this

theorem Store.get_mem {α : Type} {k : String} {v : α} {s : Store α}
    (h : Store.get k s = some v) : (k, v) ∈ s := by
  simp only [Store.get, Option.map_eq_some'] at h
  obtain ⟨e, he, hev⟩ := h
  have hmem := List.mem_of_find?_eq_some he
  have hpred := List.find?_some he
  have hk : e.1 = k := by simpa using hpred
  have : e = (k, v) := by
    cases e
    simp_all
  rwa [this] at hmem



theorem WFQueue_markSynced {q : Store SyncOperation} (h : WFQueue q) (i : String) :
    WFQueue (syncQueueDB.markSynced i q) := by
  unfold syncQueueDB.markSynced
  cases hg : Store.get i q with
  | none => exact h
  | some op =>
    intro e he
    simp only [Store.put, List.mem_append, List.mem_filter, List.mem_singleton] at he
    rcases he with ⟨hq, _⟩ | he
    · exact h e hq
    · rw [he]

theorem WFQueue_foldl_markSynced (l : List SyncOperation) (q : Store SyncOperation)
    (h : WFQueue q) :
    WFQueue (l.foldl (fun acc op => syncQueueDB.markSynced op.id acc) q) := by
  induction l generalizing q with
  | nil => exact h
  | cons op l ih => exact ih _ (WFQueue_markSynced h op.id)

theorem synced_after_markAll (l : List SyncOperation) (q : Store SyncOperation)
    (hwf : WFQueue q) (hcov : ∀ e ∈ q, e.2.synced = false → e.2 ∈ l) :
    ∀ e ∈ l.foldl (fun acc op => syncQueueDB.markSynced op.id acc) q, e.2.synced = true := by
  induction l generalizing q with
  | nil =>
    intro e he
    simp only [List.foldl_nil] at he
    by_contra hne
    have hfalse : e.2.synced = false := by
      cases hs : e.2.synced
      · rfl
      · exact absurd hs hne
    exact absurd (hcov e he hfalse) (List.not_mem_nil _)
  | cons op l ih =>
    intro e he
    simp only [List.foldl_cons] at he
    refine ih (syncQueueDB.markSynced op.id q) (WFQueue_markSynced hwf op.id) ?_ e he
    intro f hf hfsync
    unfold syncQueueDB.markSynced at hf
    cases hg : Store.get op.id q with
    | none =>
      rw [hg] at hf
      have := hcov f hf hfsync
      rcases List.mem_cons.mp this with hfo | hfl
      · exfalso
        have hkey : f.1 = op.id := by rw [hwf f hf, hfo]
        have := (Store.get_eq_none_iff op.id q).mp hg f hf
        exact this hkey
      · exact hfl
    | some v =>
      rw [hg] at hf
      have hvid : v.id = op.id := by
        have hmem := Store.get_mem hg
        have := hwf (op.id, v) hmem
        exact this.symm
      simp only [Store.put, List.mem_append, List.mem_filter, List.mem_singleton] at hf
      rcases hf with ⟨hfq, hfne⟩ | hfe
      · have := hcov f hfq hfsync
        rcases List.mem_cons.mp this with hfo | hfl
        · exfalso
          have hkey : f.1 = op.id := by rw [hwf f hfq, hfo]
          have : (f.1 != v.id) = true := hfne
          rw [hkey, hvid] at this
          simp [bne] at this
        · exact hfl
      · exfalso
        rw [hfe] at hfsync
        simp at hfsync

theorem mem_foldl_del (vals : List SyncOperation) (d : Store SyncOperation)
    (e : String × SyncOperation)
    (he : e ∈ vals.foldl (fun acc op => Store.del op.id acc) d) :
    e ∈ d ∧ ∀ v ∈ vals, e.1 ≠ v.id := by
  induction vals generalizing d with
  | nil =>
    simp only [List.foldl_nil] at he
    exact ⟨he, by simp⟩
  | cons v vs ih =>
    simp only [List.foldl_cons] at he
    obtain ⟨hdel, hall⟩ := ih (Store.del v.id d) he
    have hmem := List.mem_filter.mp hdel
    refine ⟨hmem.1, ?_⟩
    intro w hw
    rcases List.mem_cons.mp hw with hwv | hwvs
    · rw [hwv]
      have : (e.1 != v.id) = true := hmem.2
      simpa [bne] using this
    · exact hall w hwvs

theorem clearSynced_eq_nil (q : Store SyncOperation) (hwf : WFQueue q)
    (hall : ∀ e ∈ q, e.2.synced = true) : syncQueueDB.clearSynced q = [] := by
  unfold syncQueueDB.clearSynced
  have hfil : (syncQueueDB.getAll q).filter (fun op => op.synced) = syncQueueDB.getAll q := by
    apply List.filter_eq_self.mpr
    intro op hop
    unfold syncQueueDB.getAll Store.values at hop
    obtain ⟨e, he, hev⟩ := List.mem_map.mp hop
    have heq := (mem_sortByKey e q).mp he
    rw [← hev]
    exact hall e heq
  rw [hfil]
  apply List.eq_nil_iff_forall_not_mem.mpr
  intro e he
  obtain ⟨hed, hnone⟩ := mem_foldl_del _ _ _ he
  have hev : e.2 ∈ syncQueueDB.getAll q := by
    unfold syncQueueDB.getAll Store.values
    exact List.mem_map_of_mem Prod.snd ((mem_sortByKey e q).mpr hed)
  exact hnone e.2 hev (hwf e hed)

theorem drain_clears_queue (q : Store SyncOperation) (hwf : WFQueue q) :
    syncQueueDB.clearSynced
      ((syncQueueDB.getUnsynced q).foldl (fun acc op => syncQueueDB.markSynced op.id acc) q)
      = [] := by
  apply clearSynced_eq_nil
  · exact WFQueue_foldl_markSynced _ q hwf
  · apply synced_after_markAll _ q hwf
    intro e he hesync
    unfold syncQueueDB.getUnsynced syncQueueDB.getAll Store.values
    apply List.mem_filter.mpr
    refine ⟨List.mem_map_of_mem Prod.snd ((mem_sortByKey e q).mpr he), ?_⟩
    simp [hesync]

theorem get_bulkPut_not_mem (k : String) (ts : List Task) (s : Store Task)
    (h : ∀ t ∈ ts, t.id ≠ k) :
    taskDB.get k (taskDB.bulkPut ts s) = taskDB.get k s := by
  induction ts generalizing s with
  | nil => rfl
  | cons t ts ih =>
    unfold taskDB.bulkPut
    simp only [List.foldl_cons]
    have step : taskDB.get k (taskDB.put t s) = taskDB.get k s :=
      Store.get_put_other t.id k t s (fun hk => h t (List.mem_cons_self t ts) (hk ▸ rfl))
    calc taskDB.get k (List.foldl (fun acc task => taskDB.put task acc) (taskDB.put t s) ts)
        = taskDB.get k (taskDB.put t s) := ih (taskDB.put t s) (fun u hu => h u (List.mem_cons_of_mem t hu))
      _ = taskDB.get k s := step

theorem get_bulkPut_mem (t : Task) (ts : List Task) (s : Store Task)
    (hmem : t ∈ ts) (hnd : (ts.map Task.id).Nodup) :
    taskDB.get t.id (taskDB.bulkPut ts s) = some t := by
  induction ts generalizing s with
  | nil => exact absurd hmem (List.not_mem_nil t)
  | cons u us ih =>
    have hnd2 : (∀ x ∈ us, ¬x.id = u.id) ∧ (us.map Task.id).Nodup := by simpa using hnd
    unfold taskDB.bulkPut
    simp only [List.foldl_cons]
    rcases List.mem_cons.mp hmem with htu | htus
    · subst htu
      have hnot : ∀ w ∈ us, w.id ≠ t.id := fun w hw => hnd2.1 w hw
      calc taskDB.get t.id (List.foldl (fun acc task => taskDB.put task acc) (taskDB.put t s) us)
          = taskDB.get t.id (taskDB.put t s) := get_bulkPut_not_mem t.id us (taskDB.put t s) hnot
        _ = some t := Store.get_put_same t.id t s
    · exact ih (taskDB.put u s) htus hnd2.2

theorem getUnsynced_of_sorted (q : Store SyncOperation)
    (h : q.Pairwise fun p q2 => strLt p.1 q2.1 = true) :
    syncQueueDB.getUnsynced q = (q.map Prod.snd).filter fun op => !op.synced := by
  unfold syncQueueDB.getUnsynced syncQueueDB.getAll Store.values
  rw [sortByKey_eq_self q h]



theorem isEmpty_false_of_ne_nil {α : Type} {l : List α} (h : l ≠ []) : l.isEmpty = false := by
  cases l with
  | nil => exact absurd rfl h
  | cons a t => rfl

theorem syncWithBackend_of_empty (rem : List SyncOperation → Option SyncResult) (s : AppState)
    (h : syncQueueDB.getUnsynced s.db.syncQueue = []) :
    syncManager.syncWithBackend rem s =
      { res := { synced := 0, conflicts := [] }
        state := { s with ui := s.ui.setSyncStatus .success }
        calls := [] } := by
  unfold syncManager.syncWithBackend
  have hie : (syncQueueDB.getUnsynced s.db.syncQueue).isEmpty = true := by
    rw [h]; rfl
  simp only [hie, if_pos]
  simp [UIState.setSyncStatus]

theorem syncWithBackend_calls_of_ne (rem : List SyncOperation → Option SyncResult) (s : AppState)
    (h : syncQueueDB.getUnsynced s.db.syncQueue ≠ []) :
    (syncManager.syncWithBackend rem s).calls =
      [RemoteCall.syncOperations (syncQueueDB.getUnsynced s.db.syncQueue)] := by
  unfold syncManager.syncWithBackend
  have hie := isEmpty_false_of_ne_nil h
  simp only [hie, Bool.false_eq_true, if_false]
  cases rem (syncQueueDB.getUnsynced s.db.syncQueue) with
  | some r => rfl
  | none => rfl

theorem syncWithBackend_success (rem : List SyncOperation → Option SyncResult) (s : AppState)
    (r : SyncResult)
    (hwf : WFQueue s.db.syncQueue)
    (hne : syncQueueDB.getUnsynced s.db.syncQueue ≠ [])
    (hrem : rem (syncQueueDB.getUnsynced s.db.syncQueue) = some r) :
    (syncManager.syncWithBackend rem s).res = r ∧
    (syncManager.syncWithBackend rem s).state.db.tasks = s.db.tasks ∧
    (syncManager.syncWithBackend rem s).state.db.syncQueue = [] := by
  unfold syncManager.syncWithBackend
  have hie := isEmpty_false_of_ne_nil hne
  simp only [hie, Bool.false_eq_true, if_false, hrem]
  refine ⟨trivial, trivial, ?_⟩
  exact drain_clears_queue s.db.syncQueue hwf

theorem syncWithBackend_failure (rem : List SyncOperation → Option SyncResult) (s : AppState)
    (hne : syncQueueDB.getUnsynced s.db.syncQueue ≠ [])
    (hrem : rem (syncQueueDB.getUnsynced s.db.syncQueue) = none) :
    (syncManager.syncWithBackend rem s).res = { synced := 0, conflicts := [] } ∧
    (syncManager.syncWithBackend rem s).state.db = s.db := by
  unfold syncManager.syncWithBackend
  have hie := isEmpty_false_of_ne_nil hne
  simp only [hie, Bool.false_eq_true, if_false, hrem]
  exact ⟨trivial, trivial⟩



/-! ### Claim C10 -/

/-- C10: `updateTaskOffline` on an id absent from the Local Store throws
`Task not found` and leaves the whole state (tasks store and sync queue)
exactly as before: no record is written, no operation is enqueued. -/
theorem update_not_found_leaves_state (s : AppState) (opId now id : String)
    (updates : TaskPatch) (hget : taskDB.get id s.db.tasks = none) :
    syncManager.updateTaskOffline opId now id updates s
      = { state := s, thrown := some "Task not found" } := by
  unfold syncManager.updateTaskOffline
  rw [hget]

/-- Witness for C10 at a concrete empty store. -/
theorem update_not_found_leaves_state_witness :
    syncManager.updateTaskOffline "op-9" "2026-01-05T00:00:00.000Z" "ghost" {} onlineEmptyState
      = { state := onlineEmptyState, thrown := some "Task not found" } :=
  update_not_found_leaves_state onlineEmptyState "op-9" "2026-01-05T00:00:00.000Z" "ghost" {} rfl

/-! ### Claim C9 -/

/-- C9: each successful local mutation strictly increases the stored version:
`createTaskOffline` stores its task with `version = 1`, and
`updateTaskOffline` on a stored task `t` succeeds and stores the merged record
with `version = t.version + 1 > t.version`. -/
theorem local_mutations_increase_version (s : AppState)
    (tempId opId opId2 now now2 id : String) (d : CreatePayload) (updates : TaskPatch) (t : Task)
    (hget : taskDB.get id s.db.tasks = some t) :
    (syncManager.createTaskOffline tempId opId now d s).task
      = syncManager.mkOfflineTask tempId now d ∧
    (syncManager.mkOfflineTask tempId now d).version = 1 ∧
    taskDB.get tempId (syncManager.createTaskOffline tempId opId now d s).state.db.tasks
      = some (syncManager.mkOfflineTask tempId now d) ∧
    (syncManager.updateTaskOffline opId2 now2 id updates s).thrown = none ∧
    taskDB.get (syncManager.mergedTask t updates now2).id
        (syncManager.updateTaskOffline opId2 now2 id updates s).state.db.tasks
      = some (syncManager.mergedTask t updates now2) ∧
    (syncManager.mergedTask t updates now2).version = t.version + 1 ∧
    t.version < (syncManager.mergedTask t updates now2).version := by
  refine ⟨rfl, rfl, ?_, ?_, ?_, rfl, ?_⟩
  · exact Store.get_put_same tempId _ _
  · unfold syncManager.updateTaskOffline
    rw [hget]
  · unfold syncManager.updateTaskOffline
    rw [hget]
    exact Store.get_put_same _ _ _
  · exact Nat.lt_succ_self t.version

/-- Witness for C9 at a concrete state holding `t1` at version 1. -/
theorem local_mutations_increase_version_witness :
    sampleTask.version
      < (syncManager.mergedTask sampleTask { completed? := some true } "2026-01-06T00:00:00.000Z").version :=
  (local_mutations_increase_version drainState "tmp-1" "op-1" "op-2" "2026-01-06T00:00:00.000Z"
    "2026-01-06T00:00:00.000Z" "t1" { title := "New", description := none }
    { completed? := some true } sampleTask rfl).2.2.2.2.2.2

/-! ### Claim C3 -/

/-- C3 counterexample: online, `createTask({title: "Call dentist"})` succeeds
with the server task `{id: "srv-42", version: 1}`.  Afterwards the Local
Store (IndexedDB) holds no task at all — in particular no record with the
server-assigned id — because the online success path only writes the
in-memory UI store.  The claim asserts the Local Store record is written
unconditionally and carries `srv-42`. -/
theorem online_create_skips_local_store :
    (AddTaskForm.handleSubmit "tmp-1" "op-1" "2026-01-01T00:00:02.000Z" "Call dentist" ""
        (some serverTask) onlineEmptyState).state.db.tasks = [] ∧
    taskDB.get "srv-42"
        (AddTaskForm.handleSubmit "tmp-1" "op-1" "2026-01-01T00:00:02.000Z" "Call dentist" ""
          (some serverTask) onlineEmptyState).state.db.tasks = none ∧
    (AddTaskForm.handleSubmit "tmp-1" "op-1" "2026-01-01T00:00:02.000Z" "Call dentist" ""
        (some serverTask) onlineEmptyState).state.ui.tasks = [serverTask] := by
  decide

/-- C3 (amended): for an online create whose remote call succeeds, the entire
IndexedDB state is untouched (hence no outbox entry is created and no task
record is written there); the server task, carrying its server-assigned id,
is appended to the in-memory UI task list only, and the one remote call made
is the create. -/
theorem online_create_writes_ui_only (s : AppState) (tempId opId now title descr : String)
    (serverT : Task)
    (hon : s.ui.isOffline = false) (htitle : jsTrim title ≠ "") :
    (AddTaskForm.handleSubmit tempId opId now title descr (some serverT) s).state.db = s.db ∧
    (AddTaskForm.handleSubmit tempId opId now title descr (some serverT) s).state.ui.tasks
      = s.ui.tasks ++ [serverT] ∧
    (AddTaskForm.handleSubmit tempId opId now title descr (some serverT) s).calls
      = [RemoteCall.createTask (AddTaskForm.trimmedPayload title descr)] ∧
    (AddTaskForm.handleSubmit tempId opId now title descr (some serverT) s).thrown = none := by
  have ht : (jsTrim title == "") = false := beq_eq_false_iff_ne.mpr htitle
  unfold AddTaskForm.handleSubmit
  simp only [ht, Bool.false_eq_true, if_false, hon]
  exact ⟨trivial, rfl, trivial, trivial⟩

/-- Witness for C3 at the concrete online empty state. -/
theorem online_create_writes_ui_only_witness :
    (AddTaskForm.handleSubmit "tmp-1" "op-1" "2026-01-01T00:00:02.000Z" "Call dentist" ""
        (some serverTask) onlineEmptyState).state.db = onlineEmptyState.db :=
  (online_create_writes_ui_only onlineEmptyState "tmp-1" "op-1" "2026-01-01T00:00:02.000Z"
    "Call dentist" "" serverTask rfl (by decide)).1

/-! ### Claim C4 -/

/-- C4 counterexample: `t1` is conflicted (local version 2, server version 3).
`resolveConflict("t1", useLocal := true)` leaves the whole state unchanged:
the Local Store still holds the version-2 local record, not the server
acknowledgment of the forced update (the code discards the response of
`api.tasks.update`).  The claim asserts the Local Store finally holds the
server-acknowledged new version. -/
theorem keep_local_leaves_store_unchanged :
    (syncManager.resolveConflict "t1" true serverV3 conflictState).state = conflictState ∧
    taskDB.get "t1" (syncManager.resolveConflict "t1" true serverV3 conflictState).state.db.tasks
      = some localV2 ∧
    localV2.version = 2 ∧ serverV3.version = 3 := by
  decide

/-- C4 (amended): with the conflicted task present locally,
`resolveConflict(id, useLocal := true)` sends the full local record through
`api.tasks.update` and changes nothing locally (the acknowledgment is
discarded); `resolveConflict(id, useLocal := false)` performs exactly the
read `api.tasks.get`, overwrites the IndexedDB copy with exactly the fetched
record, and performs no network write. -/
theorem resolve_conflict_final_state (s : AppState) (taskId : String) (localTask remoteT : Task)
    (hget : taskDB.get taskId s.db.tasks = some localTask) :
    (syncManager.resolveConflict taskId true remoteT s).state = s ∧
    (syncManager.resolveConflict taskId true remoteT s).calls
      = [RemoteCall.updateTask taskId localTask.toPatch] ∧
    (syncManager.resolveConflict taskId false remoteT s).state.db.tasks
      = Store.put remoteT.id remoteT s.db.tasks ∧
    taskDB.get remoteT.id (syncManager.resolveConflict taskId false remoteT s).state.db.tasks
      = some remoteT ∧
    (syncManager.resolveConflict taskId false remoteT s).calls = [RemoteCall.getTask taskId] := by
  unfold syncManager.resolveConflict
  rw [hget]
  refine ⟨rfl, rfl, rfl, ?_, rfl⟩
  exact Store.get_put_same remoteT.id remoteT s.db.tasks

/-- Witness for C4 at the concrete conflicted state. -/
theorem resolve_conflict_final_state_witness :
    taskDB.get "t1" (syncManager.resolveConflict "t1" false serverV3 conflictState).state.db.tasks
      = some serverV3 :=
  (resolve_conflict_final_state conflictState "t1" localV2 serverV3 rfl).2.2.2.1


/-! ### Claim C1 -/

/-- C1 counterexample: the UI store lists `t1` (as it does after an online
create, which never writes IndexedDB), the app is online, and the toggle
mutation is requested while the remote update call fails.  The fallback
`updateTaskOffline` throws `Task not found` and the state is completely
unchanged: the mutation is afterwards neither an applied Local Store change
nor a queued operation — the silent loss the claim rules out. -/
theorem update_missing_task_loses_mutation :
    (TaskList.handleToggleComplete "op-1" "2026-01-01T00:00:01.000Z" "t1" none cexToggleState).state
      = cexToggleState ∧
    (TaskList.handleToggleComplete "op-1" "2026-01-01T00:00:01.000Z" "t1" none
        cexToggleState).state.db.syncQueue = [] ∧
    (TaskList.handleToggleComplete "op-1" "2026-01-01T00:00:01.000Z" "t1" none
        cexToggleState).state.db.tasks = [] ∧
    (TaskList.handleToggleComplete "op-1" "2026-01-01T00:00:01.000Z" "t1" none
        cexToggleState).thrown = some "Task not found" := by
  decide

/-- C1 (amended): when the direct remote call fails, a create mutation and a
delete mutation are always captured (the Local Store reflects them and an
unsynced matching operation is queued); an update mutation is captured under
the proviso that the target task is present in the Local Store (otherwise
`updateTaskOffline` throws and changes nothing). -/
theorem offline_fallback_captures_mutations
    (s : AppState) (tempId opId now title descr id : String) (task t : Task)
    (hon : s.ui.isOffline = false)
    (htitle : jsTrim title ≠ "")
    (hfind : s.ui.tasks.find? (fun u => u.id == id) = some task)
    (hget : taskDB.get id s.db.tasks = some t) :
    (taskDB.get tempId
        (AddTaskForm.handleSubmit tempId opId now title descr none s).state.db.tasks
      = some (syncManager.mkOfflineTask tempId now (AddTaskForm.trimmedPayload title descr)) ∧
     Store.get opId (AddTaskForm.handleSubmit tempId opId now title descr none s).state.db.syncQueue
      = some { id := opId, operation := .create, taskId := tempId
               data := (syncManager.mkOfflineTask tempId now
                          (AddTaskForm.trimmedPayload title descr)).toPatch
               timestamp := now, synced := false } ∧
     (AddTaskForm.handleSubmit tempId opId now title descr none s).thrown = none) ∧
    (taskDB.get (syncManager.mergedTask t { completed? := some (!task.completed) } now).id
        (TaskList.handleToggleComplete opId now id none s).state.db.tasks
      = some (syncManager.mergedTask t { completed? := some (!task.completed) } now) ∧
     Store.get opId (TaskList.handleToggleComplete opId now id none s).state.db.syncQueue
      = some { id := opId, operation := .update, taskId := id
               data := { completed? := some (!task.completed) }
               timestamp := now, synced := false } ∧
     (TaskList.handleToggleComplete opId now id none s).thrown = none) ∧
    (taskDB.get id (TaskList.handleDelete opId now id none s).state.db.tasks = none ∧
     Store.get opId (TaskList.handleDelete opId now id none s).state.db.syncQueue
      = some { id := opId, operation := .delete, taskId := id
               data := {}, timestamp := now, synced := false } ∧
     (TaskList.handleDelete opId now id none s).thrown = none) := by
  have ht : (jsTrim title == "") = false := beq_eq_false_iff_ne.mpr htitle
  refine ⟨?_, ?_, ?_⟩
  · unfold AddTaskForm.handleSubmit
    simp only [ht, Bool.false_eq_true, if_false, hon]
    unfold syncManager.createTaskOffline
    refine ⟨Store.get_put_same _ _ _, Store.get_put_same _ _ _, by trivial⟩
  · unfold TaskList.handleToggleComplete
    simp only [hfind, hon, Bool.false_eq_true, if_false]
    unfold syncManager.updateTaskOffline
    rw [hget]
    refine ⟨Store.get_put_same _ _ _, Store.get_put_same _ _ _, by trivial⟩
  · unfold TaskList.handleDelete
    simp only [hon, Bool.false_eq_true, if_false]
    unfold syncManager.deleteTaskOffline
    refine ⟨Store.get_del_same _ _, Store.get_put_same _ _ _, by trivial⟩

/-- Witness for C1 at a concrete online state holding `t1` in both stores. -/
theorem offline_fallback_captures_mutations_witness :
    taskDB.get "t1"
        (TaskList.handleDelete "op-1" "2026-01-05T00:00:00.000Z" "t1" none c1WitnessState).state.db.tasks
      = none :=
  (offline_fallback_captures_mutations c1WitnessState "tmp-1" "op-1" "2026-01-05T00:00:00.000Z"
    "Buy bread" "" "t1" sampleTask sampleTask rfl (by decide) rfl rfl).2.2.1

/-! ### Claim C2 -/

/-- C2 counterexample: the queue holds one unsynced operation targeting `t1`
and the batch response reports `t1` as a conflict.  After the drain the sync
queue is empty: the conflicting operation was marked synced and purged, so it
does not remain unsynced as the claim requires. -/
theorem conflicted_op_not_left_unsynced :
    (syncManager.syncWithBackend
        (fun _ => some { synced := 0, conflicts := [serverConflictTask] })
        drainState).state.db.syncQueue = [] ∧
    syncQueueDB.getUnsynced
        (syncManager.syncWithBackend
          (fun _ => some { synced := 0, conflicts := [serverConflictTask] })
          drainState).state.db.syncQueue = [] ∧
    (syncManager.syncWithBackend
        (fun _ => some { synced := 0, conflicts := [serverConflictTask] })
        drainState).res.conflicts = [serverConflictTask] := by
  decide

/-- C2 (amended): a drain whose batch call succeeds returns the server result
verbatim to the caller (the conflict list, one entry per conflicting task as
the server sent it, and the server synced count); no conflicting server
record is written to the Local Store tasks; but every submitted operation —
the conflicting ones included — is marked synced and then purged, leaving
the sync queue empty. -/
theorem drain_marks_all_submitted_synced (s : AppState)
    (rem : List SyncOperation → Option SyncResult) (result : SyncResult)
    (hwf : WFQueue s.db.syncQueue)
    (hne : syncQueueDB.getUnsynced s.db.syncQueue ≠ [])
    (hrem : rem (syncQueueDB.getUnsynced s.db.syncQueue) = some result) :
    (syncManager.syncWithBackend rem s).res.conflicts = result.conflicts ∧
    (syncManager.syncWithBackend rem s).res.synced = result.synced ∧
    (syncManager.syncWithBackend rem s).state.db.tasks = s.db.tasks ∧
    (syncManager.syncWithBackend rem s).state.db.syncQueue = [] := by
  obtain ⟨h1, h2, h3⟩ := syncWithBackend_success rem s result hwf hne hrem
  exact ⟨by rw [h1], by rw [h1], h2, h3⟩

/-- Witness for C2 at the concrete one-operation queue. -/
theorem drain_marks_all_submitted_synced_witness :
    (syncManager.syncWithBackend
        (fun _ => some { synced := 0, conflicts := [serverConflictTask] })
        drainState).state.db.syncQueue = [] :=
  (drain_marks_all_submitted_synced drainState
    (fun _ => some { synced := 0, conflicts := [serverConflictTask] })
    { synced := 0, conflicts := [serverConflictTask] }
    (by decide) (by decide) rfl).2.2.2

/-! ### Claim C5 -/

/-- C5 counterexample: two updates of `t1` queued back to back within the
same millisecond, so both generated operation ids share the millisecond
prefix `1759990000000` and differ only in the random suffix, the second id
sorting below the first.  The queue lists the first-enqueued operation first,
but the drain submits the batch in id order: the second-enqueued operation
comes first, reversing enqueue order. -/
theorem same_millisecond_ops_reordered :
    twoUpdateState.db.syncQueue.map Prod.fst
      = ["1759990000000-b7q3k0f2m", "1759990000000-a2f8d9h1c"] ∧
    twoUpdateState.db.syncQueue.map Prod.snd = [queuedFirstOp, queuedSecondOp] ∧
    (syncManager.syncWithBackend (fun _ => some { synced := 2, conflicts := [] })
        twoUpdateState).calls
      = [RemoteCall.syncOperations [queuedSecondOp, queuedFirstOp]] := by
  decide

/-- C5 (amended): the drain submits the unsynced operations in ascending
generated-id order, which coincides with enqueue order exactly when the
queued ids are strictly increasing — guaranteed for operations enqueued in
distinct milliseconds, but not within one millisecond, where the random id
suffix decides the batch order. -/
theorem drain_preserves_enqueue_order (s : AppState)
    (rem : List SyncOperation → Option SyncResult)
    (hsorted : s.db.syncQueue.Pairwise fun p q => strLt p.1 q.1 = true)
    (hne : (s.db.syncQueue.map Prod.snd).filter (fun op => !op.synced) ≠ []) :
    (syncManager.syncWithBackend rem s).calls =
      [RemoteCall.syncOperations ((s.db.syncQueue.map Prod.snd).filter fun op => !op.synced)] := by
  have hg := getUnsynced_of_sorted s.db.syncQueue hsorted
  have hne2 : syncQueueDB.getUnsynced s.db.syncQueue ≠ [] := by rw [hg]; exact hne
  rw [syncWithBackend_calls_of_ne rem s hne2, hg]

/-- Witness for C5 at a concrete queue with distinct-millisecond ids. -/
theorem drain_preserves_enqueue_order_witness :
    (syncManager.syncWithBackend (fun _ => none) orderedQueueState).calls =
      [RemoteCall.syncOperations
        ((orderedQueueState.db.syncQueue.map Prod.snd).filter fun op => !op.synced)] :=
  drain_preserves_enqueue_order orderedQueueState (fun _ => none) (by decide) (by decide)


/-! ### Claim C6 -/

/-- C6: after a drain whose batch call succeeded (or which had nothing to
submit), a second drain with no intervening mutation is a no-op: it finds
zero unsynced operations, performs no network call, returns
`{synced := 0, conflicts := []}`, and leaves both stores untouched. -/
theorem second_drain_is_noop (s : AppState)
    (rem1 rem2 : List SyncOperation → Option SyncResult) (r : SyncResult)
    (hwf : WFQueue s.db.syncQueue)
    (hrem : rem1 (syncQueueDB.getUnsynced s.db.syncQueue) = some r) :
    (syncManager.syncWithBackend rem2 (syncManager.syncWithBackend rem1 s).state).res
      = { synced := 0, conflicts := [] } ∧
    (syncManager.syncWithBackend rem2 (syncManager.syncWithBackend rem1 s).state).calls = [] ∧
    (syncManager.syncWithBackend rem2 (syncManager.syncWithBackend rem1 s).state).state.db
      = (syncManager.syncWithBackend rem1 s).state.db := by
  have hq2 : syncQueueDB.getUnsynced (syncManager.syncWithBackend rem1 s).state.db.syncQueue
      = [] := by
    by_cases hq : syncQueueDB.getUnsynced s.db.syncQueue = []
    · rw [syncWithBackend_of_empty rem1 s hq]
      exact hq
    · obtain ⟨_, _, h3⟩ := syncWithBackend_success rem1 s r hwf hq hrem
      rw [h3]
      rfl
  rw [syncWithBackend_of_empty rem2 _ hq2]
  exact ⟨rfl, rfl, rfl⟩

/-- Witness for C6 at the concrete one-operation queue. -/
theorem second_drain_is_noop_witness :
    (syncManager.syncWithBackend (fun _ => none)
        (syncManager.syncWithBackend (fun _ => some { synced := 1, conflicts := [] })
          drainState).state).calls = [] :=
  (second_drain_is_noop drainState (fun _ => some { synced := 1, conflicts := [] })
    (fun _ => none) { synced := 1, conflicts := [] } (by decide) rfl).2.1

/-! ### Claim C7 -/

/-- C7 counterexample: the Local Store caches `old-1`, the startup list call
succeeds returning only `srv-9`.  Afterwards the Local Store still contains
the stale `old-1` record next to `srv-9`: `bulkPut` upserts without clearing,
so the collection is not replaced wholesale and does not hold exactly the
server tasks. -/
theorem stale_cached_task_survives_load :
    (syncManager.loadTasks (some [freshTask])
        { db := { tasks := [("old-1", staleTask)], syncQueue := [] }
          ui := uiInit }).state.db.tasks.map Prod.fst = ["old-1", "srv-9"] ∧
    taskDB.get "old-1"
        (syncManager.loadTasks (some [freshTask])
          { db := { tasks := [("old-1", staleTask)], syncQueue := [] }
            ui := uiInit }).state.db.tasks = some staleTask := by
  decide

/-- C7 (amended): on a successful startup list call the UI store holds
exactly the server tasks, the state is marked online, no error is set, every
returned task is upserted into the Local Store (overwriting same-id
records), and cached records whose id the server did not return are left in
place.  On a failed list call the Local Store is untouched, the cached tasks
are presented, the state is marked offline, and no error is surfaced. -/
theorem load_tasks_cache_refresh (s : AppState) (serverTasks : List Task)
    (hnd : (serverTasks.map Task.id).Nodup) :
    (syncManager.loadTasks (some serverTasks) s).state.ui.tasks = serverTasks ∧
    (syncManager.loadTasks (some serverTasks) s).state.ui.isOffline = false ∧
    (syncManager.loadTasks (some serverTasks) s).state.ui.error = s.ui.error ∧
    (∀ t ∈ serverTasks,
      taskDB.get t.id (syncManager.loadTasks (some serverTasks) s).state.db.tasks = some t) ∧
    (∀ k : String, (∀ t ∈ serverTasks, t.id ≠ k) →
      taskDB.get k (syncManager.loadTasks (some serverTasks) s).state.db.tasks
        = taskDB.get k s.db.tasks) ∧
    (syncManager.loadTasks none s).state.db = s.db ∧
    (syncManager.loadTasks none s).state.ui.tasks = taskDB.getAll s.db.tasks ∧
    (syncManager.loadTasks none s).state.ui.isOffline = true ∧
    (syncManager.loadTasks none s).state.ui.error = s.ui.error := by
  refine ⟨rfl, rfl, rfl, ?_, ?_, rfl, rfl, rfl, rfl⟩
  · intro t ht
    exact get_bulkPut_mem t serverTasks s.db.tasks ht hnd
  · intro k hk
    exact get_bulkPut_not_mem k serverTasks s.db.tasks hk

/-- Witness for C7 at the concrete stale-cache state. -/
theorem load_tasks_cache_refresh_witness :
    (syncManager.loadTasks (some [freshTask])
        { db := { tasks := [("old-1", staleTask)], syncQueue := [] }
          ui := uiInit }).state.ui.tasks = [freshTask] :=
  (load_tasks_cache_refresh
    { db := { tasks := [("old-1", staleTask)], syncQueue := [] }, ui := uiInit }
    [freshTask] (by decide)).1

/-! ### Claim C8 -/

/-- C8: when the batch call of a drain fails, the drain resolves normally
with `{synced := 0, conflicts := []}` (no error escapes), the whole IndexedDB
state — in particular every queued operation and its `synced = false` flag —
is unchanged, the failing drain did submit the unsynced batch, and the next
drain submits exactly the same operations again. -/
theorem failed_drain_preserves_queue (s : AppState)
    (rem1 rem2 : List SyncOperation → Option SyncResult)
    (hne : syncQueueDB.getUnsynced s.db.syncQueue ≠ [])
    (hfail : rem1 (syncQueueDB.getUnsynced s.db.syncQueue) = none) :
    (syncManager.syncWithBackend rem1 s).res = { synced := 0, conflicts := [] } ∧
    (syncManager.syncWithBackend rem1 s).state.db = s.db ∧
    (syncManager.syncWithBackend rem1 s).calls
      = [RemoteCall.syncOperations (syncQueueDB.getUnsynced s.db.syncQueue)] ∧
    (syncManager.syncWithBackend rem2 (syncManager.syncWithBackend rem1 s).state).calls
      = [RemoteCall.syncOperations (syncQueueDB.getUnsynced s.db.syncQueue)] := by
  obtain ⟨h1, h2⟩ := syncWithBackend_failure rem1 s hne hfail
  have hne2 : syncQueueDB.getUnsynced
      (syncManager.syncWithBackend rem1 s).state.db.syncQueue ≠ [] := by
    rw [h2]
    exact hne
  have hc := syncWithBackend_calls_of_ne rem2 _ hne2
  rw [h2] at hc
  exact ⟨h1, h2, syncWithBackend_calls_of_ne rem1 s hne, hc⟩

/-- Witness for C8 at the concrete one-operation queue. -/
theorem failed_drain_preserves_queue_witness :
    (syncManager.syncWithBackend (fun _ => none) drainState).state.db = drainState.db :=
  (failed_drain_preserves_queue drainState (fun _ => none) (fun _ => none)
    (by decide) rfl).2.1

end TaskPWA
